import Mathlib

/-!
Verification of the MHJ SKU checker (`src/MHJ.py`).

The program reads SKUs from the first column of an uploaded Excel workbook,
fetches a search page for each SKU through a Selenium driver, classifies the
page as Listed / Delisted / Error, and writes the results back to a two-column
workbook.  This file embeds the classifier (`check_sku_status`, lines 212-259),
the per-SKU loop of `main` (lines 375-397) and the spreadsheet read/write
contracts (lines 307-318 and 429-431) as executable Lean definitions and
proves the stated properties about them.
-/

set_option maxHeartbeats 1000000

namespace MHJ

/-- The classification outcome of one SKU check: the three string values
`"Listed"`, `"Delisted"`, `"Error"` returned by `check_sku_status`. -/
inductive Status where
  | Listed
  | Delisted
  | Error
deriving DecidableEq

/-- One row of the results table: the dict `{'SKU': sku, 'Status': status}`
appended to `results` in `main` (line 380). -/
structure CheckResult where
  sku : String
  status : Status
deriving DecidableEq

/-- `charsLeading pat s` holds when `pat` is an initial block of `s`. -/
def charsLeading : List Char → List Char → Bool
  | [], _ => true
  | _ :: _, [] => false
  | p :: ps, c :: cs => p == c && charsLeading ps cs

/-- `charsContains pat s` holds when `pat` occurs contiguously in `s`. -/
def charsContains (pat : List Char) : List Char → Bool
  | [] => charsLeading pat []
  | c :: cs => charsLeading pat (c :: cs) || charsContains pat cs

/-- Python `needle in haystack` on strings: substring containment. -/
def strContains (s pat : String) : Bool :=
  charsContains pat.data s.data

/-- Python `str.lower()`: lowercase every character. -/
def strLower (s : String) : String :=
  ⟨s.data.map Char.toLower⟩

/-- The observable content of one fetched, rendered page, as inspected by
`check_sku_status`:
* `pageSource`   — `driver.page_source` (raw; the code lowercases it itself);
* `elementTexts` — the text content of the DOM elements, queried by the XPath
  `contains(text(), ...)` searches (lines 223 and 245-246);
* `productMatches` — the number of elements matching the CSS selector
  `.product-item, .product-card, .product-tile, a[href*='/product/']`
  (lines 236-237);
* `title`        — `driver.title`. -/
structure Page where
  pageSource : String
  elementTexts : List String
  productMatches : Nat
  title : String
deriving DecidableEq

/-- The classification decision list of `check_sku_status` (lines 219-256),
applied to one successfully fetched page.  The XPath text searches are
case-sensitive; the page-source checks run on the lowercased source
(`page_source = driver.page_source.lower()`, line 219); the title check
lowercases the title (line 253); the final `return "Delisted"` (line 256) is
the default fallback. -/
def classify_page (p : Page) : Status :=
  let page_source := strLower p.pageSource
  if p.elementTexts.any (fun t => strContains t "No Search Results") then
    Status.Delisted
  else if strContains page_source "no products were found"
       || strContains page_source "no search results for" then
    Status.Delisted
  else if p.productMatches > 0 then
    Status.Listed
  else if p.elementTexts.any
      (fun t => strContains t "Add to Cart" || strContains t "Add to Bag") then
    Status.Listed
  else if strContains (strLower p.title) "no search results" then
    Status.Delisted
  else
    Status.Delisted

/-- `check_sku_status driver sku` (lines 212-259): the whole body runs under
`try/except Exception: return "Error"`, so a fetch or DOM-inspection failure
for a SKU is modelled as the fetch oracle returning `Except.error` and yields
`Status.Error`; a successful fetch yields the page classification. -/
def check_sku_status (fetch : String → Except Unit Page) (sku : String) : Status :=
  match fetch sku with
  | Except.error _ => Status.Error
  | Except.ok p => classify_page p

/-- An observable step of the per-SKU loop in `main`: `fetch sku` is the
navigation issued by `check_sku_status` for that SKU (the fixed 3-second
settle sleep inside the fetch is part of this step), `delay d` is the
inter-item `time.sleep(delay)` of line 397. -/
inductive Event where
  | fetch (sku : String)
  | delay (seconds : Nat)
deriving DecidableEq

/-- Whether an event is a fetch. -/
def Event.isFetch : Event → Bool
  | Event.fetch _ => true
  | Event.delay _ => false

/-- The per-SKU loop of `main` (lines 375-397): for each SKU in order, check
it and append the result; after every SKU except the last
(`if i < len(skus) - 1`, line 396) sleep for the configured delay.  Returns
the accumulated results together with the trace of fetches and delays. -/
def runLoop (fetch : String → Except Unit Page) (delay : Nat) :
    List String → List CheckResult × List Event
  | [] => ([], [])
  | sku :: rest =>
      let next := runLoop fetch delay rest
      (⟨sku, check_sku_status fetch sku⟩ :: next.1,
       Event.fetch sku ::
         (if rest.isEmpty then next.2 else Event.delay delay :: next.2))

/-- The running metric recomputation of `main` (lines 386-389):
`len(results_df[results_df['Status'] == s])`. -/
def countStatus (s : Status) (rs : List CheckResult) : Nat :=
  (rs.filter (fun r => r.status == s)).length

/-- A spreadsheet row: one optional text cell per column (`none` is a blank
cell, which pandas reads as NaN).  Cell values are modelled as text;
`astype(str)` is the identity on them. -/
abbrev Row := List (Option String)

/-- The two ways reading the uploaded workbook fails in `main`:
`df.empty` (line 309, "The uploaded file is empty!") and an empty SKU list
(line 316, "No SKUs found in Column A!"). -/
inductive ReadError where
  | EmptyInputError
  | NoIdentifiersError
deriving DecidableEq

/-- Reading the uploaded workbook (`main`, lines 307-318):
`pd.read_excel` consumes the first row of the sheet as the header, so the
data frame holds the remaining rows; `df.empty` fails when there are no data
rows; `df.iloc[:, 0].dropna().astype(str).tolist()` takes the first column,
drops blank cells and coerces the rest to text, preserving row order; an
empty result fails with the no-SKUs error. -/
def read_skus (rows : List Row) : Except ReadError (List String) :=
  let dataRows := rows.tail
  if dataRows.isEmpty then
    Except.error ReadError.EmptyInputError
  else
    let skus := dataRows.filterMap (fun r => r.headD none)
    if skus.isEmpty then
      Except.error ReadError.NoIdentifiersError
    else
      Except.ok skus

/-- The status strings written to the results table. -/
def statusText : Status → String
  | Status.Listed => "Listed"
  | Status.Delisted => "Delisted"
  | Status.Error => "Error"

/-- Writing the results workbook (`main`, lines 429-431):
`results_df.to_excel(writer, index=False)` writes a header row `SKU, Status`
followed by one two-cell row per result, in result order. -/
def write_results (rs : List CheckResult) : List Row :=
  [some "SKU", some "Status"] ::
    rs.map (fun r => [some r.sku, some (statusText r.status)])

/-- A generic read of both columns of a workbook: the first row is the
header, every following row gives its first two cells. -/
def read_pairs (rows : List Row) : List (Option String × Option String) :=
  rows.tail.map (fun r => (r.headD none, (r.drop 1).headD none))

/-- The upload-to-results pipeline of `main`: a read error stops the run
before any SKU is checked; otherwise the loop runs over the SKUs read. -/
def run_from_workbook (fetch : String → Except Unit Page) (delay : Nat)
    (rows : List Row) : Except ReadError (List CheckResult) :=
  match read_skus rows with
  | Except.error e => Except.error e
  | Except.ok skus => Except.ok (runLoop fetch delay skus).1

/-- The classifier exactly as the spec words it (§4.1): a five-step decision
list whose third step merges the product-selector match and the
Add-to-Cart/Add-to-Bag control into one `hasMatchingElements` condition. -/
def classify_spec (p : Page) : Status :=
  let pageText := strLower p.pageSource
  let hasMatchingElements :=
    p.productMatches > 0
    || p.elementTexts.any
        (fun t => strContains t "Add to Cart" || strContains t "Add to Bag")
  if p.elementTexts.any (fun t => strContains t "No Search Results") then
    Status.Delisted
  else if strContains pageText "no products were found"
       || strContains pageText "no search results for" then
    Status.Delisted
  else if hasMatchingElements then
    Status.Listed
  else if strContains (strLower p.title) "no search results" then
    Status.Delisted
  else
    Status.Delisted

/-! ### Helper lemmas -/

/-- Lowercasing both lists preserves a leading-block match. -/
theorem charsLeading_map_toLower : ∀ pat s : List Char, charsLeading pat s = true →
    charsLeading (pat.map Char.toLower) (s.map Char.toLower) = true
  | [], _, _ => rfl
  | _ :: _, [], h => by simp [charsLeading] at h
  | p :: ps, c :: cs, h => by
      simp only [charsLeading, Bool.and_eq_true, beq_iff_eq] at h
      simp only [List.map_cons, charsLeading, Bool.and_eq_true, beq_iff_eq]
      exact ⟨h.1 ▸ rfl, charsLeading_map_toLower ps cs h.2⟩

/-- Lowercasing both lists preserves contiguous containment. -/
theorem charsContains_map_toLower : ∀ (s pat : List Char), charsContains pat s = true →
    charsContains (pat.map Char.toLower) (s.map Char.toLower) = true
  | [], pat, h => charsLeading_map_toLower pat [] h
  | c :: cs, pat, h => by
      simp only [charsContains, Bool.or_eq_true] at h
      simp only [List.map_cons, charsContains, Bool.or_eq_true]
      rcases h with h | h
      · exact Or.inl (by simpa using charsLeading_map_toLower pat (c :: cs) h)
      · exact Or.inr (charsContains_map_toLower cs pat h)

/-- Lowercasing a string preserves any substring it contains. -/
theorem strContains_strLower {s pat : String} (h : strContains s pat = true) :
    strContains (strLower s) (strLower pat) = true :=
  charsContains_map_toLower s.data pat.data h

/-- A successful workbook read returns the non-blank first-column cells of the
data rows (all rows after the header), in order. -/
theorem read_skus_ok {rows : List Row} {l : List String}
    (h : read_skus rows = Except.ok l) :
    l = rows.tail.filterMap (fun r => r.headD none) := by
  simp only [read_skus] at h
  split at h
  · exact absurd h (by simp)
  · split at h
    · exact absurd h (by simp)
    · simp only [Except.ok.injEq] at h
      exact h.symm

/-- The loop produces exactly one result per SKU, in input order. -/
theorem runLoop_results (fetch : String → Except Unit Page) (d : Nat) :
    ∀ skus : List String,
      (runLoop fetch d skus).1 =
        skus.map (fun sku => ⟨sku, check_sku_status fetch sku⟩)
  | [] => rfl
  | sku :: rest => by
      simp [runLoop, runLoop_results fetch d rest]

/-- The loop's results carry the input SKUs, in order. -/
theorem runLoop_skus (fetch : String → Except Unit Page) (d : Nat) :
    ∀ skus : List String,
      (runLoop fetch d skus).1.map CheckResult.sku = skus
  | [] => rfl
  | sku :: rest => by
      simp [runLoop, runLoop_skus fetch d rest]

/-- One-step unfolding of the loop when at least one SKU follows: the fetch
is followed by the inter-item delay. -/
theorem runLoop_cons_cons (fetch : String → Except Unit Page) (d : Nat)
    (sku s2 : String) (rest : List String) :
    runLoop fetch d (sku :: s2 :: rest) =
      (⟨sku, check_sku_status fetch sku⟩ :: (runLoop fetch d (s2 :: rest)).1,
       Event.fetch sku :: Event.delay d :: (runLoop fetch d (s2 :: rest)).2) :=
  rfl

/-- The event trace of the loop is the fetches in input order with one
configured delay between consecutive fetches. -/
theorem runLoop_trace (fetch : String → Except Unit Page) (d : Nat) :
    ∀ skus : List String,
      (runLoop fetch d skus).2 =
        List.intersperse (Event.delay d) (skus.map Event.fetch)
  | [] => rfl
  | [_] => rfl
  | sku :: s2 :: rest => by
      rw [runLoop_cons_cons]
      simpa using runLoop_trace fetch d (s2 :: rest)

/-- The fetch events of a run are exactly the SKUs, in order. -/
theorem runLoop_trace_fetches (fetch : String → Except Unit Page) (d : Nat) :
    ∀ skus : List String,
      (runLoop fetch d skus).2.filter Event.isFetch = skus.map Event.fetch
  | [] => rfl
  | [_] => rfl
  | sku :: s2 :: rest => by
      rw [runLoop_cons_cons]
      simpa [List.filter_cons, Event.isFetch] using
        runLoop_trace_fetches fetch d (s2 :: rest)

/-- The non-fetch events of a run are exactly `length - 1` delays of the
configured duration. -/
theorem runLoop_trace_delays (fetch : String → Except Unit Page) (d : Nat) :
    ∀ skus : List String,
      (runLoop fetch d skus).2.filter (fun e => !(Event.isFetch e)) =
        List.replicate (skus.length - 1) (Event.delay d)
  | [] => rfl
  | [_] => rfl
  | sku :: s2 :: rest => by
      rw [runLoop_cons_cons]
      simpa [List.filter_cons, Event.isFetch, List.replicate_succ] using
        runLoop_trace_delays fetch d (s2 :: rest)

/-- The three status counts partition any result sequence. -/
theorem countStatus_partition : ∀ rs : List CheckResult,
    countStatus Status.Listed rs + countStatus Status.Delisted rs +
      countStatus Status.Error rs = rs.length
  | [] => rfl
  | r :: rs => by
      have ih := countStatus_partition rs
      cases h : r.status <;>
        simp [countStatus, List.filter_cons, h] at ih ⊢ <;>
          omega

/-! ### Claims -/

/-- C1: the status classifier is the first-match-wins decision list of
spec §4.1 — (1) "No Search Results" element → Delisted, (2) lowercased page
text contains "no products were found" / "no search results for" →
Delisted, (3) product-card/product-link match or Add-to-Cart/Add-to-Bag
control → Listed, (4) lowercased title contains "no search results" →
Delisted, (5) default → Delisted — with the result determined by the first
condition that holds, for every page. -/
theorem classify_decision_list_eq_spec (p : Page) :
    classify_page p = classify_spec p := by
  by_cases hp : p.productMatches > 0 <;>
    simp [classify_page, classify_spec, hp]

/-- C5: at every point of a run, the Listed, Delisted and Error counts each
equal the number of results carrying that status and together partition the
result sequence produced so far. -/
theorem summary_counts_partition (fetch : String → Except Unit Page)
    (d n : Nat) (skus : List String) :
    (∀ rs : List CheckResult,
      countStatus Status.Listed rs + countStatus Status.Delisted rs +
        countStatus Status.Error rs = rs.length) ∧
    (countStatus Status.Listed ((runLoop fetch d skus).1.take n) +
      countStatus Status.Delisted ((runLoop fetch d skus).1.take n) +
      countStatus Status.Error ((runLoop fetch d skus).1.take n) =
      ((runLoop fetch d skus).1.take n).length) :=
  ⟨countStatus_partition, countStatus_partition _⟩

/-- C6: a page whose source contains the phrase "No products were found" is
classified Delisted whatever the other page content is — even with product
cards or cart controls present. -/
theorem no_products_phrase_forces_delisted (p : Page)
    (h : strContains p.pageSource "No products were found" = true) :
    classify_page p = Status.Delisted := by
  have hlow : strContains (strLower p.pageSource) "no products were found" = true := by
    have h2 := strContains_strLower h
    have he : strLower "No products were found" = "no products were found" := by decide
    rwa [he] at h2
  simp [classify_page, hlow]

/-- Witness for C6 at a concrete page carrying product matches. -/
theorem no_products_phrase_forces_delisted_witness :
    classify_page ⟨"No products were found", [], 5, ""⟩ = Status.Delisted :=
  no_products_phrase_forces_delisted ⟨"No products were found", [], 5, ""⟩ (by decide)

/-- C10: the "No Search Results" element check is case-sensitive while the
page-text checks run on the lowercased source: a page whose only delisting
marker is an element reading "no search results" slips past step 1 and is
decided by the later product check (Listed) or title check (Delisted),
whereas the exact capitalization, or any casing of a page-text phrase,
yields Delisted. -/
theorem banner_check_case_sensitivity :
    ((⟨"", ["no search results"], 1, ""⟩ : Page).elementTexts.any
      (fun t => strContains t "No Search Results") = false) ∧
    (classify_page ⟨"", ["no search results"], 1, ""⟩ = Status.Listed) ∧
    (classify_page ⟨"", ["No Search Results"], 1, ""⟩ = Status.Delisted) ∧
    (classify_page ⟨"xx NO SEARCH RESULTS FOR abc", [], 1, ""⟩ = Status.Delisted) ∧
    (classify_page ⟨"", ["no search results"], 0, "No Search Results page"⟩ =
      Status.Delisted) := by
  decide

/-- C2: reading takes the first column, drops blank cells, keeps the
remaining cells as text in row order (an order-preserving subsequence of the
first column), and on the sheet whose `SKU` column holds "23360778", a blank
and "22334633" it yields exactly ["23360778", "22334633"]. -/
theorem read_first_column_contract (rows : List Row) (l : List String)
    (h : read_skus rows = Except.ok l) :
    List.Sublist l (rows.filterMap (fun r => r.headD none)) ∧
    read_skus [[some "SKU"], [some "23360778"], [none], [some "22334633"]] =
      Except.ok ["23360778", "22334633"] := by
  refine ⟨?_, rfl⟩
  rw [read_skus_ok h]
  exact List.Sublist.filterMap _ (List.tail_sublist rows)

/-- Witness for C2 at the three-value example sheet. -/
theorem read_first_column_contract_witness :
    List.Sublist ["23360778", "22334633"]
      (([[some "SKU"], [some "23360778"], [none], [some "22334633"]] :
        List Row).filterMap (fun r => r.headD none)) :=
  (read_first_column_contract
    [[some "SKU"], [some "23360778"], [none], [some "22334633"]]
    ["23360778", "22334633"] rfl).1

/-- C9: the reader always consumes the first row as the header, so a
successful read is determined by the rows after the first and the first
row's column-A value never contributes; a headerless two-SKU file loses its
first SKU. -/
theorem header_row_always_consumed (rows : List Row) (l : List String)
    (h : read_skus rows = Except.ok l) :
    l = rows.tail.filterMap (fun r => r.headD none) ∧
    read_skus [[some "23360778"], [some "22334633"]] = Except.ok ["22334633"] :=
  ⟨read_skus_ok h, rfl⟩

/-- Witness for C9 at a headerless two-row sheet. -/
theorem header_row_always_consumed_witness :
    ["22334633"] =
      ([[some "23360778"], [some "22334633"]] : List Row).tail.filterMap
        (fun r => r.headD none) :=
  (header_row_always_consumed [[some "23360778"], [some "22334633"]]
    ["22334633"] rfl).1

/-- C7: reading fails with `EmptyInputError` exactly when there are no data
rows, with `NoIdentifiersError` exactly when the data rows' first column has
no non-blank cell, and either read error stops the pipeline before any SKU
is checked, so no results are produced. -/
theorem read_error_taxonomy (rows : List Row) (e : ReadError)
    (fetch : String → Except Unit Page) (d : Nat) :
    (read_skus rows = Except.error ReadError.EmptyInputError ↔ rows.tail = []) ∧
    (read_skus rows = Except.error ReadError.NoIdentifiersError ↔
      (rows.tail ≠ [] ∧ rows.tail.filterMap (fun r => r.headD none) = [])) ∧
    (read_skus rows = Except.error e →
      run_from_workbook fetch d rows = Except.error e) := by
  by_cases h1 : rows.tail.isEmpty = true
  · have ht : rows.tail = [] := List.isEmpty_iff.mp h1
    have hr : read_skus rows = Except.error ReadError.EmptyInputError := by
      simp only [read_skus]
      rw [if_pos h1]
    refine ⟨⟨fun _ => ht, fun _ => hr⟩, ⟨fun he => ?_, fun hc => absurd ht hc.1⟩,
      fun he => ?_⟩
    · rw [hr] at he
      simp at he
    · rw [hr] at he
      simp only [Except.error.injEq] at he
      subst he
      simp [run_from_workbook, hr]
  · have ht : rows.tail ≠ [] := fun hnil => h1 (by simp [hnil])
    by_cases h2 : (rows.tail.filterMap (fun r => r.headD none)).isEmpty = true
    · have hf : rows.tail.filterMap (fun r => r.headD none) = [] :=
        List.isEmpty_iff.mp h2
      have hr : read_skus rows = Except.error ReadError.NoIdentifiersError := by
        simp only [read_skus]
        rw [if_neg h1, if_pos h2]
      refine ⟨⟨fun he => ?_, fun hnil => absurd hnil ht⟩,
        ⟨fun _ => ⟨ht, hf⟩, fun _ => hr⟩, fun he => ?_⟩
      · rw [hr] at he
        simp at he
      · rw [hr] at he
        simp only [Except.error.injEq] at he
        subst he
        simp [run_from_workbook, hr]
    · have hf : rows.tail.filterMap (fun r => r.headD none) ≠ [] :=
        fun hnil => h2 (by rw [hnil]; rfl)
      have hr : read_skus rows =
          Except.ok (rows.tail.filterMap (fun r => r.headD none)) := by
        simp only [read_skus]
        rw [if_neg h1, if_neg h2]
      refine ⟨⟨fun he => ?_, fun hnil => absurd hnil ht⟩,
        ⟨fun he => ?_, fun hc => absurd hc.2 hf⟩, fun he => ?_⟩
      · rw [hr] at he
        exact absurd he (by simp)
      · rw [hr] at he
        exact absurd he (by simp)
      · rw [hr] at he
        exact absurd he (by simp)

/-- Witness for C7 at the empty workbook. -/
theorem read_error_taxonomy_witness :
    read_skus ([] : List Row) = Except.error ReadError.EmptyInputError ∧
    run_from_workbook (fun _ => Except.error ()) 1 [] =
      Except.error ReadError.EmptyInputError := by
  have h := read_error_taxonomy [] ReadError.EmptyInputError
    (fun _ => Except.error ()) 1
  have h0 := h.1.mpr rfl
  exact ⟨h0, h.2.2 h0⟩

/-- C4: an exception during the fetch or DOM inspection of one SKU yields
`Status.Error` for that SKU only; the run still produces exactly one result
per input SKU, in input order, each determined by its own fetch. -/
theorem per_sku_error_isolation (fetch : String → Except Unit Page) (d : Nat)
    (skus : List String) (s : String) (h : fetch s = Except.error ()) :
    (runLoop fetch d skus).1 =
      skus.map (fun sku => ⟨sku, check_sku_status fetch sku⟩) ∧
    (runLoop fetch d skus).1.map CheckResult.sku = skus ∧
    (runLoop fetch d skus).1.length = skus.length ∧
    check_sku_status fetch s = Status.Error := by
  refine ⟨runLoop_results fetch d skus, runLoop_skus fetch d skus, ?_, ?_⟩
  · rw [runLoop_results]
    simp
  · simp [check_sku_status, h]

/-- Witness for C4: a fetch oracle that always raises still yields one
result per SKU, each with status Error. -/
theorem per_sku_error_isolation_witness :
    (runLoop (fun _ => Except.error ()) 2 ["23360778", "22334633"]).1.length = 2 ∧
    check_sku_status (fun _ => Except.error ()) "23360778" = Status.Error := by
  have h := per_sku_error_isolation (fun _ => Except.error ()) 2
    ["23360778", "22334633"] "23360778" rfl
  exact ⟨h.2.2.1, h.2.2.2⟩

/-- C8: a run over n SKUs issues exactly n fetches, one per SKU in input
order, with exactly n − 1 inter-item delays of the configured duration —
the trace interleaves one delay between consecutive fetches and ends with
the last fetch; in particular 3 SKUs at delay 1 give 3 fetches and 2
delays. -/
theorem run_trace_fetches_and_delays (fetch : String → Except Unit Page)
    (d : Nat) (skus : List String) :
    (runLoop fetch d skus).2 =
      List.intersperse (Event.delay d) (skus.map Event.fetch) ∧
    (runLoop fetch d skus).2.filter Event.isFetch = skus.map Event.fetch ∧
    ((runLoop fetch d skus).2.filter Event.isFetch).length = skus.length ∧
    (runLoop fetch d skus).2.filter (fun e => !(Event.isFetch e)) =
      List.replicate (skus.length - 1) (Event.delay d) ∧
    (runLoop (fun _ => Except.error ()) 1
        ["23360778", "23402560", "23189867"]).2 =
      [Event.fetch "23360778", Event.delay 1, Event.fetch "23402560",
       Event.delay 1, Event.fetch "23189867"] := by
  refine ⟨runLoop_trace fetch d skus, runLoop_trace_fetches fetch d skus, ?_,
    runLoop_trace_delays fetch d skus, by decide⟩
  rw [runLoop_trace_fetches fetch d skus]
  simp

/-- C3 counterexample: writing the empty result sequence and reading it back
with the read contract does not reproduce the empty SKU sequence — the
header-only workbook fails with `EmptyInputError`. -/
theorem write_read_empty_roundtrip_fails :
    read_skus (write_results []) = Except.error ReadError.EmptyInputError ∧
    read_skus (write_results []) ≠
      Except.ok (List.map CheckResult.sku []) := by
  refine ⟨rfl, fun hc => ?_⟩
  exact Except.noConfusion
    (hc : Except.error ReadError.EmptyInputError = Except.ok [])

/-- C3 amended: for every nonempty result sequence, the written workbook has
a header plus one two-cell row per result in input order, a generic read of
both columns reproduces the (SKU, status) pairs in order, and the read
contract reproduces the SKU sequence. -/
theorem write_read_roundtrip_nonempty (rs : List CheckResult) (h : rs ≠ []) :
    (write_results rs).length = rs.length + 1 ∧
    (∀ row ∈ write_results rs, row.length = 2) ∧
    read_pairs (write_results rs) =
      rs.map (fun r => (some r.sku, some (statusText r.status))) ∧
    read_skus (write_results rs) = Except.ok (rs.map CheckResult.sku) := by
  refine ⟨by simp [write_results], ?_, ?_, ?_⟩
  · intro row hrow
    simp only [write_results, List.mem_cons, List.mem_map] at hrow
    rcases hrow with hrow | ⟨r, _, hrow⟩ <;> subst hrow <;> rfl
  · simp only [read_pairs, write_results, List.tail_cons, List.map_map]
    rfl
  · have hskus : ∀ l : List CheckResult,
        (l.map fun r => [some r.sku, some (statusText r.status)]).filterMap
          (fun r => r.headD none) = l.map CheckResult.sku := by
      intro l
      induction l with
      | nil => rfl
      | cons a t ih => simpa using ih
    cases rs with
    | nil => exact absurd rfl h
    | cons r0 rest =>
      simp only [read_skus, write_results, List.tail_cons, hskus (r0 :: rest)]
      simp

/-- Witness for the amended C3 at a one-row result sequence. -/
theorem write_read_roundtrip_nonempty_witness :
    read_skus (write_results [⟨"23360778", Status.Listed⟩]) =
      Except.ok ["23360778"] :=
  (write_read_roundtrip_nonempty [⟨"23360778", Status.Listed⟩]
    (by simp)).2.2.2

end MHJ
